import Mathlib

/-!
Verification of the forecasting core of the City Electricity Demand
Forecasting backend (`backend_ml/app.py`, with `app_enhanced.py` an
equivalent variant of the same engine).

The embedding is shallow:
* a pandas DataFrame row becomes `Row` — an hourly timestamp (hours since
  1970-01-01T00:00Z) together with a total valuation of the named channels;
* a DataFrame becomes `List Row`, ordered as the frame is;
* float arithmetic is embedded in `ℚ`;
* the five opaque model artifacts (XGBoost regressor, LSTM input scaler,
  LSTM regressor, LSTM output inverse scaler, fusion regressor) are
  parameters of the rollout, each returning `Except String _` to mirror the
  Python exception channel;
* a raised exception becomes `Except.error`, caught at the endpoint
  boundary exactly as `get_hourly_forecast` catches it.
-/

namespace CityForecast

/-- Row of the hourly time-series table: `ts` is the timestamp in whole
hours since the Unix epoch, `vals` gives the reading of every named
channel (column) at that timestamp. -/
structure Row where
  ts : Nat
  vals : String → ℚ

/-- Default row used by `List.getD` style lookups. -/
def defaultRow : Row := { ts := 0, vals := fun _ => 0 }

/-- Configuration constant `TARGET_COLUMN` of `app.py` (line 19). -/
def TARGET_COLUMN : String := "Phase3_power"

/-- Configuration constant `N_LOOKBACK` of `app.py` (line 20). -/
def N_LOOKBACK : Nat := 72

/-- Configuration constant `FEATURES_LSTM` of `app.py` (lines 21-24). -/
def FEATURES_LSTM : List String :=
  ["Phase2_current", "Phase2_voltage", "Phase3_frequency",
   "Phase3_pf", "Phase3_power", "Phase3_voltage"]

/-- Configuration constant `FEATURES_XGB` of `app.py` (lines 25-30): the
ordered feature set the trained tree regressor consumes. -/
def FEATURES_XGB : List String :=
  ["Phase2_current", "Phase2_voltage", "Phase3_frequency", "Phase3_pf", "Phase3_voltage",
   "hour", "dayofweek", "month", "quarter", "year", "dayofyear",
   "Phase3_power_lag_1h", "Phase3_power_lag_3h", "Phase3_power_lag_24h",
   "Phase3_power_roll_avg_3h", "Phase3_power_roll_avg_6h", "Phase3_power_roll_avg_24h"]

/-- Configuration constant `CRITICAL_LOAD_THRESHOLD` of `app.py` (line 31). -/
def CRITICAL_LOAD_THRESHOLD : Nat := 500

/-! ### Calendar arithmetic

The deriver reads six calendar components off the pandas `DatetimeIndex`
(`.hour`, `.dayofweek`, `.month`, `.quarter`, `.year`, `.dayofyear`).
They are reproduced here for an hour count since 1970-01-01 (a Thursday;
pandas numbers Monday as 0). -/

/-- Hour of day of an hour-count timestamp (`index.hour`). -/
def hourOfTs (ts : Nat) : Nat := ts % 24

/-- Day count since 1970-01-01 of an hour-count timestamp. -/
def dayOfTs (ts : Nat) : Nat := ts / 24

/-- Day of week, Monday = 0 (`index.dayofweek`); 1970-01-01 is a Thursday. -/
def dayofweekOfTs (ts : Nat) : Nat := (dayOfTs ts + 3) % 7

/-- Gregorian leap-year test. -/
def isLeap (y : Nat) : Bool := (y % 4 == 0 && y % 100 != 0) || y % 400 == 0

/-- Civil date (year, month, day) of a day count since 1970-01-01,
following the standard days-to-civil conversion. -/
def civilFromDays (z : Nat) : Nat × Nat × Nat :=
  let z2 := z + 719468
  let era := z2 / 146097
  let doe := z2 % 146097
  let yoe := (doe - doe / 1460 + doe / 36524 - doe / 146096) / 365
  let y := yoe + era * 400
  let doy := doe - (365 * yoe + yoe / 4 - yoe / 100)
  let mp := (5 * doy + 2) / 153
  let d := doy - (153 * mp + 2) / 5 + 1
  let m := if mp < 10 then mp + 3 else mp - 9
  (if m ≤ 2 then y + 1 else y, m, d)

/-- Month 1-12 of an hour-count timestamp (`index.month`). -/
def monthOfTs (ts : Nat) : Nat := (civilFromDays (dayOfTs ts)).2.1

/-- Quarter 1-4 of an hour-count timestamp (`index.quarter`). -/
def quarterOfTs (ts : Nat) : Nat := (monthOfTs ts - 1) / 3 + 1

/-- Year of an hour-count timestamp (`index.year`). -/
def yearOfTs (ts : Nat) : Nat := (civilFromDays (dayOfTs ts)).1

/-- Length in days of month `m` of year `y`. -/
def monthLength (y m : Nat) : Nat :=
  if m = 2 then (if isLeap y then 29 else 28)
  else if m = 4 ∨ m = 6 ∨ m = 9 ∨ m = 11 then 30
  else 31

/-- Days in year `y` strictly before month `m`. -/
def daysBeforeMonth (y m : Nat) : Nat :=
  ((List.range (m - 1)).map (fun k => monthLength y (k + 1))).sum

/-- Day of year, 1-based (`index.dayofyear`). -/
def dayofyearOfTs (ts : Nat) : Nat :=
  let c := civilFromDays (dayOfTs ts)
  daysBeforeMonth c.1 c.2.1 + c.2.2

/-! ### Series operations

`shiftAt` and `rollMeanAt` reproduce the pandas `Series.shift` and
`Series.rolling(window=w).mean()` semantics positionally on a list of
values: an entry with insufficient history is `none` (pandas NaN). -/

/-- Arithmetic mean of a list of rationals (pandas `.mean()` over a full
window). -/
def listMean (l : List ℚ) : ℚ := l.sum / l.length

/-- Value at position `t` of `series.shift(k)`: the value `k` rows
earlier, `none` (NaN) for the first `k` rows. -/
def shiftAt (xs : List ℚ) (k t : Nat) : Option ℚ :=
  if k ≤ t then xs[t - k]? else none

/-- Value at position `t` of `series.rolling(window=w).mean()`: the mean
of the `w` values at positions `t-w+1 .. t`, `none` (NaN) while fewer
than `w` values are available. -/
def rollMeanAt (xs : List ℚ) (w t : Nat) : Option ℚ :=
  if w ≤ t + 1 ∧ t < xs.length then
    some (listMean ((xs.drop (t + 1 - w)).take w))
  else none

/-- Value at position `t` of `series.rolling(window=w).mean().shift(1)`,
the form used by `create_features_xgb` (app.py lines 76-78). -/
def rollMeanShiftAt (xs : List ℚ) (w t : Nat) : Option ℚ :=
  if 1 ≤ t then rollMeanAt xs w (t - 1) else none

/-- Trailing slice `l.iloc[-n:]` of a DataFrame embedded as a list:
the last `n` entries, or all of them when fewer than `n` exist. -/
def lastN (n : Nat) (l : List α) : List α := l.drop (l.length - n)

/-! ### Feature deriver (`create_features_xgb`, app.py lines 64-79) -/

/-- Enriched row produced by `create_features_xgb`: the unmodified base
row plus the six calendar columns and the six lag/rolling columns the
function assigns. Lag/rolling values are `Option ℚ` because pandas leaves
them NaN when history is too short. -/
structure EnrichedRow where
  base : Row
  hour : ℚ
  dayofweek : ℚ
  month : ℚ
  quarter : ℚ
  year : ℚ
  dayofyear : ℚ
  lag1h : Option ℚ
  lag3h : Option ℚ
  lag24h : Option ℚ
  roll3h : Option ℚ
  roll6h : Option ℚ
  roll24h : Option ℚ

/-- Default enriched row for `List.getD` style lookups. -/
def defaultEnriched : EnrichedRow :=
  { base := defaultRow, hour := 0, dayofweek := 0, month := 0, quarter := 0,
    year := 0, dayofyear := 0, lag1h := none, lag3h := none, lag24h := none,
    roll3h := none, roll6h := none, roll24h := none }

/-- Names of the six calendar columns `create_features_xgb` assigns
(app.py lines 67-72), in assignment order. -/
def calendarCols : List String :=
  ["hour", "dayofweek", "month", "quarter", "year", "dayofyear"]

/-- Names of the five raw channels appearing in `FEATURES_XGB`. -/
def rawChannelCols : List String :=
  ["Phase2_current", "Phase2_voltage", "Phase3_frequency", "Phase3_pf", "Phase3_voltage"]

/-- Names of the six lag/rolling columns `create_features_xgb` assigns
(app.py lines 73-78), in assignment order. -/
def lagRollCols : List String :=
  ["Phase3_power_lag_1h", "Phase3_power_lag_3h", "Phase3_power_lag_24h",
   "Phase3_power_roll_avg_3h", "Phase3_power_roll_avg_6h", "Phase3_power_roll_avg_24h"]

/-- Enriched row at position `t` of `create_features_xgb df tc`: the row
itself plus the six calendar components of its timestamp and the six
lag/rolling statistics of the target-channel series at position `t`. -/
def enrichedAt (df : List Row) (tc : String) (t : Nat) : EnrichedRow :=
  let r := df.getD t defaultRow
  let s := df.map (fun row => row.vals tc)
  { base := r,
    hour := (hourOfTs r.ts : ℚ),
    dayofweek := (dayofweekOfTs r.ts : ℚ),
    month := (monthOfTs r.ts : ℚ),
    quarter := (quarterOfTs r.ts : ℚ),
    year := (yearOfTs r.ts : ℚ),
    dayofyear := (dayofyearOfTs r.ts : ℚ),
    lag1h := shiftAt s 1 t,
    lag3h := shiftAt s 3 t,
    lag24h := shiftAt s 24 t,
    roll3h := rollMeanShiftAt s 3 t,
    roll6h := rollMeanShiftAt s 6 t,
    roll24h := rollMeanShiftAt s 24 t }

/-- Embedding of `create_features_xgb(df, target_col)` (app.py lines
64-79): the function copies its input and adds twelve derived columns, so
the result is the input table row-for-row, each row enriched with the
calendar and lag/rolling features. -/
def create_features_xgb (df : List Row) (tc : String) : List EnrichedRow :=
  (List.range df.length).map (enrichedAt df tc)

/-- Column lookup on an enriched row. Branches are ordered by reverse
assignment order of `create_features_xgb`, so a later assignment shadows
an earlier column of the same name, as in pandas. Columns not assigned by
the deriver fall through to the base row. -/
def EnrichedRow.get (er : EnrichedRow) (tc c : String) : Option ℚ :=
  if c = tc ++ "_roll_avg_24h" then er.roll24h
  else if c = tc ++ "_roll_avg_6h" then er.roll6h
  else if c = tc ++ "_roll_avg_3h" then er.roll3h
  else if c = tc ++ "_lag_24h" then er.lag24h
  else if c = tc ++ "_lag_3h" then er.lag3h
  else if c = tc ++ "_lag_1h" then er.lag1h
  else if c = "dayofyear" then some er.dayofyear
  else if c = "year" then some er.year
  else if c = "quarter" then some er.quarter
  else if c = "month" then some er.month
  else if c = "dayofweek" then some er.dayofweek
  else if c = "hour" then some er.hour
  else some (er.base.vals c)

/-- Feature vector `X_xgb = current_data_xgb[FEATURES_XGB]` (app.py line
122): the enriched row reindexed by the trained feature order. -/
def xgbFeatureVector (er : EnrichedRow) : List (Option ℚ) :=
  FEATURES_XGB.map (er.get TARGET_COLUMN)

/-! ### Model artifacts and the autoregressive rollout
(`get_hourly_forecast`, app.py lines 106-154) -/

/-- Forecast result entry `{timestamp, predicted_power}` appended at app.py
lines 134-137. -/
structure ForecastResult where
  timestamp : Nat
  predicted_power : ℚ

/-- Default forecast result for `List.getD` style lookups. -/
def defaultFR : ForecastResult := { timestamp := 0, predicted_power := 0 }

/-- Bundle of the five pre-fitted artifacts the rollout invokes, each an
opaquely given operation that may raise (model files are external to this
repository): `model_xgb.predict` on the 17-entry feature vector
(NaN entries are `none`), `scaler_x.transform` on the raw window,
`model_lstm.predict` composed with the `[0][0]` scalar extraction,
`scaler_y.inverse_transform` composed with the `[0][0]` extraction, and
`model_fusion.predict` on the pair of upstream predictions. -/
structure Models where
  modelXgb : List (Option ℚ) → Except String ℚ
  scalerX : List (List ℚ) → Except String (List (List ℚ))
  modelLstm : List (List ℚ) → Except String ℚ
  scalerYInv : ℚ → Except String ℚ
  modelFusion : ℚ → ℚ → Except String ℚ

/-- Predicate: none of the five artifact operations ever raises. -/
def TotalModels (M : Models) : Prop :=
  (∀ x, ∃ y, M.modelXgb x = Except.ok y) ∧
  (∀ x, ∃ y, M.scalerX x = Except.ok y) ∧
  (∀ x, ∃ y, M.modelLstm x = Except.ok y) ∧
  (∀ x, ∃ y, M.scalerYInv x = Except.ok y) ∧
  (∀ x y, ∃ z, M.modelFusion x y = Except.ok z)

/-- Sequence-window extraction of app.py line 120:
`base_data[FEATURES_LSTM].iloc[-N_LOOKBACK:]` — restrict the table to the
requested channels and keep the trailing `n` rows (all rows when fewer
than `n` exist; the slice itself never raises). -/
def windowLstm (table : List Row) (channels : List String) (n : Nat) : List (List ℚ) :=
  lastN n (table.map (fun r => channels.map r.vals))

/-- One iteration of the 24-step loop of `get_hourly_forecast` (app.py
lines 118-147): derive the engineered last row and the trailing raw
window, run the three regressors (any raised exception propagates),
compute `next_timestamp = last_timestamp + 1 hour`, synthesize the next
row (target channel set to the fused prediction, every other channel
copied from the most recent row, lines 139-145), and append it to the
rolling table. An empty rolling table makes the `iloc[-1]` indexing
raise, hence the error branch. -/
def stepForecast (M : Models) (tc : String) (base : List Row) :
    Except String (ForecastResult × List Row) :=
  match base.getLast? with
  | none => Except.error "single positional indexer is out-of-bounds"
  | some last =>
    let lastE := (create_features_xgb base tc).getLast?.getD defaultEnriched
    let xXgb := FEATURES_XGB.map (lastE.get tc)
    let windowRaw := windowLstm base FEATURES_LSTM N_LOOKBACK
    match M.modelXgb xXgb with
    | Except.error e => Except.error e
    | Except.ok predXgb =>
      match M.scalerX windowRaw with
      | Except.error e => Except.error e
      | Except.ok scaled =>
        match M.modelLstm scaled with
        | Except.error e => Except.error e
        | Except.ok predLstmScaled =>
          match M.scalerYInv predLstmScaled with
          | Except.error e => Except.error e
          | Except.ok predLstm =>
            match M.modelFusion predXgb predLstm with
            | Except.error e => Except.error e
            | Except.ok predFusion =>
              let nextTs := last.ts + 1
              let newRow : Row :=
                { ts := nextTs,
                  vals := fun c => if c = tc then predFusion else last.vals c }
              Except.ok ({ timestamp := nextTs, predicted_power := predFusion },
                         base ++ [newRow])

/-- The `for _ in range(n)` loop of `get_hourly_forecast`, threading the
rolling table and the accumulated `forecast_results`; the first raised
exception aborts the whole loop. -/
def rolloutAux (M : Models) (tc : String) :
    Nat → List Row → List ForecastResult →
    Except String (List ForecastResult × List Row)
  | 0, base, acc => Except.ok (acc, base)
  | n + 1, base, acc =>
    match stepForecast M tc base with
    | Except.error e => Except.error e
    | Except.ok (fr, base2) => rolloutAux M tc n base2 (acc ++ [fr])

/-- Embedding of `get_hourly_forecast` (app.py lines 106-154) returning
both the forecast results and the final rolling table: start from a
private copy of the trailing 96 rows of the historical table and run 24
iterations. -/
def get_hourly_forecast_full (M : Models) (full : List Row) :
    Except String (List ForecastResult × List Row) :=
  rolloutAux M TARGET_COLUMN 24 (lastN 96 full) []

/-- The endpoint's visible result: the forecast sequence alone (the final
rolling table is request-local and dropped). -/
def get_hourly_forecast (M : Models) (full : List Row) :
    Except String (List ForecastResult) :=
  (get_hourly_forecast_full M full).map Prod.fst

/-- Timestamp of the last row of a table (0 for an empty table). -/
def lastTs (l : List Row) : Nat := (l.getLast?.getD defaultRow).ts

/-! ### Alerts (`check_alerts`, app.py lines 186-198 and
app_enhanced.py lines 118-132) -/

/-- Alert record `{timestamp, level, id, message}` as built by
`check_alerts`. -/
structure Alert where
  timestamp : Nat
  level : String
  id : String
  message : String

/-- Message of the hardcoded demo alert (app.py line 195), with
`CRITICAL_LOAD_THRESHOLD` interpolated. -/
def demoMessage : String :=
  "Demo Alert: Predicted load 512.5 MW exceeds " ++
    toString CRITICAL_LOAD_THRESHOLD ++ " MW threshold."

/-- Embedding of the `check_alerts` endpoint (app.py lines 186-198):
whatever the data holds, it builds the one hardcoded demo alert at
`now + 4 hours` and returns it. It consults no forecast (app_enhanced.py
fixes `forecast_data = []`, so its conditional always fires too). -/
def check_alerts (now : Nat) : List Alert :=
  [{ timestamp := now + 4, level := "critical", id := "alert-1",
     message := demoMessage }]

/-- Modelled from the spec: the Alert Evaluator contract of spec section
4.5, which is absent from the code (the code ships the hardcoded demo
variant above). For each forecast entry whose `predicted_power` exceeds
the threshold, emit one critical alert carrying that entry's timestamp
and a message embedding the value and the threshold. -/
def evaluateSpec (forecast : List ForecastResult) (threshold : ℚ) : List Alert :=
  forecast.filterMap (fun fr =>
    if threshold < fr.predicted_power then
      some { timestamp := fr.timestamp, level := "critical", id := "",
             message := "Predicted load " ++ toString fr.predicted_power ++
               " MW exceeds " ++ toString threshold ++ " MW threshold." }
    else none)

/-! ### Helper lemmas -/

theorem lastN_ne_nil {l : List α} (hl : l ≠ []) (n : Nat) (hn : 1 ≤ n) :
    lastN n l ≠ [] := by
  have h1 : 1 ≤ l.length := List.length_pos.mpr hl
  simp only [lastN, ne_eq, List.drop_eq_nil_iff]
  omega

theorem lastN_getLast? {l : List α} (hl : l ≠ []) (n : Nat) (hn : 1 ≤ n) :
    (lastN n l).getLast? = l.getLast? := by
  have h2 : l.drop (l.length - n) ≠ [] := lastN_ne_nil hl n hn
  unfold lastN
  conv_rhs => rw [← List.take_append_drop (l.length - n) l]
  exact (List.getLast?_append_of_ne_nil _ h2).symm

theorem getD_append_map_range (l : List α) (f : Nat → α) (n i : Nat) (d : α)
    (hi : i < n) :
    (l ++ (List.range n).map f).getD (l.length + i) d = f i := by
  rw [List.getD_eq_getElem?_getD,
    List.getElem?_append_right (by omega : l.length ≤ l.length + i)]
  simp [List.getElem?_range hi]

theorem getD_append_left (l l2 : List α) (i : Nat) (d : α) (hi : i < l.length) :
    (l ++ l2).getD i d = l.getD i d := by
  rw [List.getD_eq_getElem?_getD, List.getElem?_append_left hi,
    ← List.getD_eq_getElem?_getD]

theorem getLast?_getD_as_getD (l : List α) (d : α) :
    l.getLast?.getD d = l.getD (l.length - 1) d := by
  rw [List.getD_eq_getElem?_getD, ← List.getLast?_eq_getElem?]

/-- Inversion of one successful rollout step: the rolling table was
nonempty, the emitted result carries `last timestamp + 1 hour`, and the
appended row has the target channel set to the emitted prediction and
every other channel copied from the previous last row. -/
theorem stepForecast_ok {M : Models} {tc : String} {base : List Row}
    {fr : ForecastResult} {base2 : List Row}
    (h : stepForecast M tc base = Except.ok (fr, base2)) :
    ∃ last, base.getLast? = some last ∧
      fr.timestamp = last.ts + 1 ∧
      base2 = base ++
        [{ ts := last.ts + 1,
           vals := fun c => if c = tc then fr.predicted_power else last.vals c }] := by
  unfold stepForecast at h
  cases hL : base.getLast? with
  | none => rw [hL] at h; exact absurd h (by simp)
  | some last =>
    rw [hL] at h
    simp only at h
    cases h1 : M.modelXgb (FEATURES_XGB.map
        (((create_features_xgb base tc).getLast?.getD defaultEnriched).get tc)) with
    | error e => rw [h1] at h; exact absurd h (by simp)
    | ok predXgb =>
      rw [h1] at h; simp only at h
      cases h2 : M.scalerX (windowLstm base FEATURES_LSTM N_LOOKBACK) with
      | error e => rw [h2] at h; exact absurd h (by simp)
      | ok scaled =>
        rw [h2] at h; simp only at h
        cases h3 : M.modelLstm scaled with
        | error e => rw [h3] at h; exact absurd h (by simp)
        | ok predLstmScaled =>
          rw [h3] at h; simp only at h
          cases h4 : M.scalerYInv predLstmScaled with
          | error e => rw [h4] at h; exact absurd h (by simp)
          | ok predLstm =>
            rw [h4] at h; simp only at h
            cases h5 : M.modelFusion predXgb predLstm with
            | error e => rw [h5] at h; exact absurd h (by simp)
            | ok predFusion =>
              rw [h5] at h
              simp only [Except.ok.injEq, Prod.mk.injEq] at h
              obtain ⟨hfr, hb2⟩ := h
              subst hfr
              exact ⟨last, rfl, rfl, hb2.symm⟩

/-- A successful rollout step exists whenever the artifacts are total and
the rolling table is nonempty. -/
theorem stepForecast_total {M : Models} (hM : TotalModels M) (tc : String)
    {base : List Row} (hb : base ≠ []) :
    ∃ fr base2, stepForecast M tc base = Except.ok (fr, base2) := by
  obtain ⟨hx, hsx, hlstm, hsy, hfu⟩ := hM
  have hL : base.getLast?.isSome := List.getLast?_isSome.mpr hb
  obtain ⟨last, hlast⟩ := Option.isSome_iff_exists.mp hL
  obtain ⟨predXgb, h1⟩ := hx (FEATURES_XGB.map
    (((create_features_xgb base tc).getLast?.getD defaultEnriched).get tc))
  obtain ⟨scaled, h2⟩ := hsx (windowLstm base FEATURES_LSTM N_LOOKBACK)
  obtain ⟨predLstmScaled, h3⟩ := hlstm scaled
  obtain ⟨predLstm, h4⟩ := hsy predLstmScaled
  obtain ⟨predFusion, h5⟩ := hfu predXgb predLstm
  refine ⟨{ timestamp := last.ts + 1, predicted_power := predFusion },
    base ++ [{ ts := last.ts + 1,
               vals := fun c => if c = tc then predFusion else last.vals c }], ?_⟩
  unfold stepForecast
  rw [hlast]
  simp only
  rw [h1]; simp only
  rw [h2]; simp only
  rw [h3]; simp only
  rw [h4]; simp only
  rw [h5]

/-- Closed form of a successful rollout: the results are the accumulator
followed by one entry per step at hourly increments past the initial
table's last timestamp, and the final rolling table is the initial table
followed by one synthetic row per step whose target channel holds that
step's prediction and whose other channels all equal the initial table's
last row. -/
theorem rolloutAux_ok_shape (M : Models) (tc : String) :
    ∀ (n : Nat) (base : List Row) (acc : List ForecastResult)
      {res : List ForecastResult} {fin : List Row},
      rolloutAux M tc n base acc = Except.ok (res, fin) →
      ∃ p : Nat → ℚ,
        res = acc ++ (List.range n).map (fun i =>
          { timestamp := lastTs base + i + 1, predicted_power := p i }) ∧
        fin = base ++ (List.range n).map (fun i =>
          { ts := lastTs base + i + 1,
            vals := fun c =>
              if c = tc then p i else (base.getLast?.getD defaultRow).vals c }) := by
  intro n
  induction n with
  | zero =>
    intro base acc res fin h
    simp only [rolloutAux, Except.ok.injEq, Prod.mk.injEq] at h
    obtain ⟨h1, h2⟩ := h
    exact ⟨fun _ => 0, by simp [h1.symm], by simp [h2.symm]⟩
  | succ n ih =>
    intro base acc res fin h
    simp only [rolloutAux] at h
    cases hs : stepForecast M tc base with
    | error e => rw [hs] at h; exact absurd h (by simp)
    | ok out =>
      obtain ⟨fr, base2⟩ := out
      rw [hs] at h
      simp only at h
      obtain ⟨last, hL, hts, hb2⟩ := stepForecast_ok hs
      obtain ⟨p2, hres, hfin⟩ := ih base2 (acc ++ [fr]) h
      set nr : Row :=
        { ts := last.ts + 1,
          vals := fun c => if c = tc then fr.predicted_power else last.vals c }
        with hnr
      have hlastTs : lastTs base = last.ts := by
        simp [lastTs, hL]
      have hvals : (base.getLast?.getD defaultRow).vals = last.vals := by
        rw [hL]; rfl
      have hlast2 : base2.getLast? = some nr := by
        rw [hb2]; exact List.getLast?_concat base
      have hlastTs2 : lastTs base2 = last.ts + 1 := by
        simp [lastTs, hlast2, hnr]
      have hvals2 : (base2.getLast?.getD defaultRow).vals = nr.vals := by
        rw [hlast2]; rfl
      refine ⟨fun i => match i with
        | 0 => fr.predicted_power
        | Nat.succ k => p2 k, ?_, ?_⟩
      · rw [hres, List.range_succ_eq_map, List.map_cons, List.map_map,
          List.append_assoc, List.singleton_append]
        congr 1
        congr 1
        · rw [hlastTs]
          have h0 : last.ts + 0 + 1 = fr.timestamp := by omega
          rw [h0]
        · apply List.map_congr_left
          intro a _
          simp only [Function.comp_apply]
          have h1 : lastTs base2 + a + 1 = lastTs base + (a + 1) + 1 := by
            rw [hlastTs2, hlastTs]; omega
          rw [h1]
      · rw [hfin, hb2, List.append_assoc, List.singleton_append,
          List.range_succ_eq_map, List.map_cons, List.map_map]
        rw [← hb2]
        congr 1
        congr 1
        · rw [hvals]
          have h0 : lastTs base + 0 + 1 = last.ts + 1 := by rw [hlastTs]
          rw [h0]
        · apply List.map_congr_left
          intro a _
          simp only [Function.comp_apply]
          have h1 : lastTs base2 + a + 1 = lastTs base + (a + 1) + 1 := by
            rw [hlastTs2, hlastTs]; omega
          rw [h1, hvals2, hvals]
          congr 1
          funext c
          by_cases hc : c = tc
          · simp [hc]
          · simp [hc, hnr]

/-- A rollout over total artifacts starting from a nonempty rolling table
always succeeds. -/
theorem rolloutAux_total {M : Models} (hM : TotalModels M) (tc : String) :
    ∀ (n : Nat) (base : List Row) (acc : List ForecastResult), base ≠ [] →
      ∃ out, rolloutAux M tc n base acc = Except.ok out := by
  intro n
  induction n with
  | zero => intro base acc _; exact ⟨(acc, base), rfl⟩
  | succ n ih =>
    intro base acc hb
    obtain ⟨fr, base2, hs⟩ := stepForecast_total hM tc hb
    obtain ⟨last, hL, hts, hb2⟩ := stepForecast_ok hs
    have hb2ne : base2 ≠ [] := by rw [hb2]; simp
    obtain ⟨out, hout⟩ := ih base2 (acc ++ [fr]) hb2ne
    refine ⟨out, ?_⟩
    simp only [rolloutAux]
    rw [hs]
    exact hout

/-- A successful rollout of at least one step started from a nonempty
rolling table. -/
theorem rolloutAux_ok_ne_nil {M : Models} {tc : String} {n : Nat}
    {base : List Row} {acc : List ForecastResult}
    {out : List ForecastResult × List Row}
    (h : rolloutAux M tc n base acc = Except.ok out) (hn : 1 ≤ n) :
    base ≠ [] := by
  cases n with
  | zero => omega
  | succ n =>
    intro hb
    subst hb
    simp only [rolloutAux] at h
    have hstep : stepForecast M tc [] =
        Except.error "single positional indexer is out-of-bounds" := rfl
    rw [hstep] at h
    exact absurd h (by simp)

/-! ### Concrete instances used by the witnesses -/

/-- Artifact bundle whose regressors always answer 0 and whose scalers
are the identity; every operation succeeds. -/
def constModels : Models where
  modelXgb := fun _ => Except.ok 0
  scalerX := fun w => Except.ok w
  modelLstm := fun _ => Except.ok 0
  scalerYInv := fun x => Except.ok x
  modelFusion := fun _ _ => Except.ok 0

theorem constModels_total : TotalModels constModels :=
  ⟨fun _ => ⟨0, rfl⟩, fun x => ⟨x, rfl⟩, fun _ => ⟨0, rfl⟩,
   fun x => ⟨x, rfl⟩, fun _ _ => ⟨0, rfl⟩⟩

/-- Historical table with a single all-zero row at hour 0. -/
def oneRowTable : List Row := [{ ts := 0, vals := fun _ => 0 }]

theorem oneRowTable_ne_nil : oneRowTable ≠ [] := List.cons_ne_nil _ _

/-! ### Claim theorems -/

/-- C1: for every historical table with at least one row (and the loaded
artifacts never raising), the 24-step rollout returns exactly 24 forecast
results, ordered by strictly increasing timestamps spaced exactly one
hour apart, the first equal to the last historical timestamp plus one
hour. -/
theorem C1_rollout_returns_24_hourly_results
    (M : Models) (full : List Row) (hM : TotalModels M) (hfull : full ≠ []) :
    ∃ res : List ForecastResult,
      get_hourly_forecast M full = Except.ok res ∧
      res.length = 24 ∧
      (∀ i, i < 24 → (res.getD i defaultFR).timestamp = lastTs full + (i + 1)) ∧
      (res.getD 0 defaultFR).timestamp = lastTs full + 1 ∧
      (∀ i, i + 1 < 24 →
        (res.getD (i + 1) defaultFR).timestamp = (res.getD i defaultFR).timestamp + 1) ∧
      (∀ i j, i < j → j < 24 →
        (res.getD i defaultFR).timestamp < (res.getD j defaultFR).timestamp) := by
  have hbase : lastN 96 full ≠ [] := lastN_ne_nil hfull 96 (by omega)
  obtain ⟨out, hout⟩ :=
    rolloutAux_total hM TARGET_COLUMN 24 (lastN 96 full) [] hbase
  obtain ⟨res, fin⟩ := out
  obtain ⟨p, hres, -⟩ := rolloutAux_ok_shape M TARGET_COLUMN 24 (lastN 96 full) [] hout
  have hLts : lastTs (lastN 96 full) = lastTs full := by
    unfold lastTs
    rw [lastN_getLast? hfull 96 (by omega)]
  have hts : ∀ i, i < 24 →
      (res.getD i defaultFR).timestamp = lastTs full + (i + 1) := by
    intro i hi
    have hg := getD_append_map_range ([] : List ForecastResult)
      (fun i => { timestamp := lastTs (lastN 96 full) + i + 1, predicted_power := p i })
      24 i defaultFR hi
    simp only [List.length_nil, Nat.zero_add] at hg
    rw [hres, hg]
    simp only [hLts]
    omega
  refine ⟨res, ?_, ?_, hts, ?_, ?_, ?_⟩
  · unfold get_hourly_forecast get_hourly_forecast_full
    rw [hout]
    rfl
  · rw [hres]; simp
  · exact hts 0 (by omega)
  · intro i hi
    rw [hts i (by omega), hts (i + 1) hi]
    omega
  · intro i j hij hj
    rw [hts i (by omega), hts j hj]
    omega

/-- Witness for C1 at the constant artifact bundle and a one-row table. -/
theorem C1_witness :
    ∃ res : List ForecastResult,
      get_hourly_forecast constModels oneRowTable = Except.ok res ∧
      res.length = 24 ∧
      (∀ i, i < 24 →
        (res.getD i defaultFR).timestamp = lastTs oneRowTable + (i + 1)) ∧
      (res.getD 0 defaultFR).timestamp = lastTs oneRowTable + 1 ∧
      (∀ i, i + 1 < 24 →
        (res.getD (i + 1) defaultFR).timestamp = (res.getD i defaultFR).timestamp + 1) ∧
      (∀ i j, i < j → j < 24 →
        (res.getD i defaultFR).timestamp < (res.getD j defaultFR).timestamp) :=
  C1_rollout_returns_24_hourly_results constModels oneRowTable
    constModels_total oneRowTable_ne_nil

/-- C7: the forecast operation is all-or-nothing — for every artifact
bundle and table it either surfaces a single failure with no forecast
results at all, or succeeds with the full 24-entry sequence; a partial or
truncated sequence is impossible. -/
theorem C7_all_or_nothing (M : Models) (full : List Row) :
    (∃ e, get_hourly_forecast M full = Except.error e) ∨
    (∃ res, get_hourly_forecast M full = Except.ok res ∧ res.length = 24) := by
  cases hout : get_hourly_forecast_full M full with
  | error e =>
    left
    refine ⟨e, ?_⟩
    unfold get_hourly_forecast
    rw [hout]
    rfl
  | ok out =>
    obtain ⟨res, fin⟩ := out
    right
    obtain ⟨p, hres, -⟩ :=
      rolloutAux_ok_shape M TARGET_COLUMN 24 (lastN 96 full) [] hout
    refine ⟨res, ?_, ?_⟩
    · unfold get_hourly_forecast
      rw [hout]
      rfl
    · rw [hres]; simp

/-- C2: every synthesized row appended during the rollout carries the
fused prediction of its step in the target channel and copies every
non-target channel from the immediately preceding row of the rolling
table, for all 24 steps. -/
theorem C2_synthesized_rows_naive_persistence
    (M : Models) (full : List Row) (res : List ForecastResult) (fin : List Row)
    (h : get_hourly_forecast_full M full = Except.ok (res, fin)) :
    res.length = 24 ∧
    fin.length = (lastN 96 full).length + 24 ∧
    1 ≤ (lastN 96 full).length ∧
    ∀ i, i < 24 →
      (fin.getD ((lastN 96 full).length + i) defaultRow).vals TARGET_COLUMN
        = (res.getD i defaultFR).predicted_power ∧
      ∀ c, c ≠ TARGET_COLUMN →
        (fin.getD ((lastN 96 full).length + i) defaultRow).vals c
          = (fin.getD ((lastN 96 full).length + i - 1) defaultRow).vals c := by
  have h2 : rolloutAux M TARGET_COLUMN 24 (lastN 96 full) [] = Except.ok (res, fin) := h
  obtain ⟨p, hres, hfin⟩ := rolloutAux_ok_shape M TARGET_COLUMN 24 (lastN 96 full) [] h2
  have hbne : lastN 96 full ≠ [] := rolloutAux_ok_ne_nil h2 (by omega)
  have hb1 : 1 ≤ (lastN 96 full).length := List.length_pos.mpr hbne
  have hresD : ∀ i, i < 24 → res.getD i defaultFR =
      { timestamp := lastTs (lastN 96 full) + i + 1, predicted_power := p i } := by
    intro i hi
    have hg := getD_append_map_range ([] : List ForecastResult)
      (fun i => ({ timestamp := lastTs (lastN 96 full) + i + 1,
                   predicted_power := p i } : ForecastResult))
      24 i defaultFR hi
    simp only [List.length_nil, Nat.zero_add] at hg
    rw [hres, hg]
  have hfinD : ∀ i, i < 24 → fin.getD ((lastN 96 full).length + i) defaultRow =
      { ts := lastTs (lastN 96 full) + i + 1,
        vals := fun c => if c = TARGET_COLUMN then p i
          else ((lastN 96 full).getLast?.getD defaultRow).vals c } := by
    intro i hi
    have hg := getD_append_map_range (lastN 96 full)
      (fun i => ({ ts := lastTs (lastN 96 full) + i + 1,
                   vals := fun c => if c = TARGET_COLUMN then p i
                     else ((lastN 96 full).getLast?.getD defaultRow).vals c } : Row))
      24 i defaultRow hi
    rw [hfin, hg]
  refine ⟨by rw [hres]; simp, by rw [hfin]; simp, hb1, ?_⟩
  intro i hi
  constructor
  · rw [hfinD i hi, hresD i hi]
    simp
  · intro c hc
    rw [hfinD i hi]
    by_cases hi0 : i = 0
    · subst hi0
      have hidx : (lastN 96 full).length + 0 - 1 = (lastN 96 full).length - 1 := by
        omega
      rw [hidx]
      have hleft : fin.getD ((lastN 96 full).length - 1) defaultRow
          = (lastN 96 full).getD ((lastN 96 full).length - 1) defaultRow := by
        rw [hfin]
        exact getD_append_left _ _ _ _ (by omega)
      rw [hleft, ← getLast?_getD_as_getD]
      simp [hc]
    · have hidx : (lastN 96 full).length + i - 1
          = (lastN 96 full).length + (i - 1) := by omega
      rw [hidx, hfinD (i - 1) (by omega)]
      simp [hc]

/-- Witness for C2 at the constant artifact bundle and a one-row table. -/
theorem C2_witness :
    ∃ (res : List ForecastResult) (fin : List Row),
      get_hourly_forecast_full constModels oneRowTable = Except.ok (res, fin) ∧
      (res.length = 24 ∧
       fin.length = (lastN 96 oneRowTable).length + 24 ∧
       1 ≤ (lastN 96 oneRowTable).length ∧
       ∀ i, i < 24 →
         (fin.getD ((lastN 96 oneRowTable).length + i) defaultRow).vals TARGET_COLUMN
           = (res.getD i defaultFR).predicted_power ∧
         ∀ c, c ≠ TARGET_COLUMN →
           (fin.getD ((lastN 96 oneRowTable).length + i) defaultRow).vals c
             = (fin.getD ((lastN 96 oneRowTable).length + i - 1) defaultRow).vals c) := by
  have hbase : lastN 96 oneRowTable ≠ [] :=
    lastN_ne_nil oneRowTable_ne_nil 96 (by omega)
  obtain ⟨out, hout⟩ :=
    rolloutAux_total constModels_total TARGET_COLUMN 24 (lastN 96 oneRowTable) [] hbase
  obtain ⟨res, fin⟩ := out
  have h : get_hourly_forecast_full constModels oneRowTable = Except.ok (res, fin) :=
    hout
  exact ⟨res, fin, h,
    C2_synthesized_rows_naive_persistence constModels oneRowTable res fin h⟩

/-- C10: every synthesized row of the rollout carries, in each non-target
channel, exactly the value of the last real historical row, so the
exogenous channels are constant across the whole 24-step horizon. -/
theorem C10_exogenous_channels_frozen
    (M : Models) (full : List Row) (res : List ForecastResult) (fin : List Row)
    (h : get_hourly_forecast_full M full = Except.ok (res, fin)) :
    (∀ i, i < 24 → ∀ c, c ≠ TARGET_COLUMN →
      (fin.getD ((lastN 96 full).length + i) defaultRow).vals c
        = (full.getLast?.getD defaultRow).vals c) ∧
    (∀ i j, i < 24 → j < 24 → ∀ c, c ≠ TARGET_COLUMN →
      (fin.getD ((lastN 96 full).length + i) defaultRow).vals c
        = (fin.getD ((lastN 96 full).length + j) defaultRow).vals c) := by
  have h2 : rolloutAux M TARGET_COLUMN 24 (lastN 96 full) [] = Except.ok (res, fin) := h
  obtain ⟨p, hres, hfin⟩ := rolloutAux_ok_shape M TARGET_COLUMN 24 (lastN 96 full) [] h2
  have hbne : lastN 96 full ≠ [] := rolloutAux_ok_ne_nil h2 (by omega)
  have hfull_ne : full ≠ [] := by
    intro hfull0
    rw [hfull0] at hbne
    exact hbne rfl
  have hgl : (lastN 96 full).getLast? = full.getLast? :=
    lastN_getLast? hfull_ne 96 (by omega)
  have hfinD : ∀ i, i < 24 → fin.getD ((lastN 96 full).length + i) defaultRow =
      { ts := lastTs (lastN 96 full) + i + 1,
        vals := fun c => if c = TARGET_COLUMN then p i
          else ((lastN 96 full).getLast?.getD defaultRow).vals c } := by
    intro i hi
    have hg := getD_append_map_range (lastN 96 full)
      (fun i => ({ ts := lastTs (lastN 96 full) + i + 1,
                   vals := fun c => if c = TARGET_COLUMN then p i
                     else ((lastN 96 full).getLast?.getD defaultRow).vals c } : Row))
      24 i defaultRow hi
    rw [hfin, hg]
  constructor
  · intro i hi c hc
    rw [hfinD i hi]
    simp [hc, hgl]
  · intro i j hi hj c hc
    rw [hfinD i hi, hfinD j hj]
    simp [hc]

/-- Witness for C10 at the constant artifact bundle and a one-row table. -/
theorem C10_witness :
    ∃ (res : List ForecastResult) (fin : List Row),
      get_hourly_forecast_full constModels oneRowTable = Except.ok (res, fin) ∧
      ((∀ i, i < 24 → ∀ c, c ≠ TARGET_COLUMN →
         (fin.getD ((lastN 96 oneRowTable).length + i) defaultRow).vals c
           = (oneRowTable.getLast?.getD defaultRow).vals c) ∧
       (∀ i j, i < 24 → j < 24 → ∀ c, c ≠ TARGET_COLUMN →
         (fin.getD ((lastN 96 oneRowTable).length + i) defaultRow).vals c
           = (fin.getD ((lastN 96 oneRowTable).length + j) defaultRow).vals c)) := by
  have hbase : lastN 96 oneRowTable ≠ [] :=
    lastN_ne_nil oneRowTable_ne_nil 96 (by omega)
  obtain ⟨out, hout⟩ :=
    rolloutAux_total constModels_total TARGET_COLUMN 24 (lastN 96 oneRowTable) [] hbase
  obtain ⟨res, fin⟩ := out
  have h : get_hourly_forecast_full constModels oneRowTable = Except.ok (res, fin) :=
    hout
  exact ⟨res, fin, h,
    C10_exogenous_channels_frozen constModels oneRowTable res fin h⟩

/-- Causality of the shifted rolling mean: at any position `t` with at
least `w` earlier rows, its value is the mean of the `w`-row window that
ends strictly before `t`. -/
theorem rollMeanShiftAt_causal (xs : List ℚ) (w t : Nat)
    (h1 : 1 ≤ w) (h2 : w ≤ t) (h3 : t ≤ xs.length) :
    rollMeanShiftAt xs w t = some (listMean ((xs.drop (t - w)).take w)) ∧
    ((xs.drop (t - w)).take w).length = w ∧
    ∀ j, j < w → ((xs.drop (t - w)).take w).getD j 0 = xs.getD (t - w + j) 0 ∧
      t - w + j < t := by
  have ht1 : 1 ≤ t := le_trans h1 h2
  refine ⟨?_, ?_, ?_⟩
  · unfold rollMeanShiftAt rollMeanAt
    rw [if_pos ht1, if_pos (by omega : w ≤ t - 1 + 1 ∧ t - 1 < xs.length)]
    have he : t - 1 + 1 - w = t - w := by omega
    rw [he]
  · rw [List.length_take, List.length_drop]
    omega
  · intro j hj
    refine ⟨?_, by omega⟩
    rw [List.getD_eq_getElem?_getD, List.getD_eq_getElem?_getD,
      List.getElem?_take, if_pos hj, List.getElem?_drop]

/-- Positional lookup into the enriched table. -/
theorem create_features_xgb_getD (df : List Row) (tc : String) (t : Nat)
    (ht : t < df.length) :
    (create_features_xgb df tc).getD t defaultEnriched = enrichedAt df tc t := by
  unfold create_features_xgb
  rw [List.getD_eq_getElem?_getD, List.getElem?_map, List.getElem?_range ht]
  rfl

/-- C3: each rolling-mean feature produced by the feature deriver
(windows 3, 6 and 24) at a row `t` with sufficient history equals the
mean of the target channel over the window of rows strictly before `t`,
never including row `t` itself. -/
theorem C3_rolling_means_are_causal (df : List Row) (tc : String) (t : Nat)
    (ht : t < df.length) :
    (3 ≤ t →
      ((create_features_xgb df tc).getD t defaultEnriched).roll3h
        = some (listMean (((df.map (fun r => r.vals tc)).drop (t - 3)).take 3)) ∧
      (((df.map (fun r => r.vals tc)).drop (t - 3)).take 3).length = 3 ∧
      (∀ j, j < 3 →
        (((df.map (fun r => r.vals tc)).drop (t - 3)).take 3).getD j 0
          = (df.map (fun r => r.vals tc)).getD (t - 3 + j) 0 ∧ t - 3 + j < t)) ∧
    (6 ≤ t →
      ((create_features_xgb df tc).getD t defaultEnriched).roll6h
        = some (listMean (((df.map (fun r => r.vals tc)).drop (t - 6)).take 6)) ∧
      (((df.map (fun r => r.vals tc)).drop (t - 6)).take 6).length = 6 ∧
      (∀ j, j < 6 →
        (((df.map (fun r => r.vals tc)).drop (t - 6)).take 6).getD j 0
          = (df.map (fun r => r.vals tc)).getD (t - 6 + j) 0 ∧ t - 6 + j < t)) ∧
    (24 ≤ t →
      ((create_features_xgb df tc).getD t defaultEnriched).roll24h
        = some (listMean (((df.map (fun r => r.vals tc)).drop (t - 24)).take 24)) ∧
      (((df.map (fun r => r.vals tc)).drop (t - 24)).take 24).length = 24 ∧
      (∀ j, j < 24 →
        (((df.map (fun r => r.vals tc)).drop (t - 24)).take 24).getD j 0
          = (df.map (fun r => r.vals tc)).getD (t - 24 + j) 0 ∧ t - 24 + j < t)) := by
  have hlen : t ≤ (df.map (fun r => r.vals tc)).length := by
    rw [List.length_map]
    omega
  refine ⟨?_, ?_, ?_⟩ <;> intro hw <;> rw [create_features_xgb_getD df tc t ht]
  · exact rollMeanShiftAt_causal (df.map (fun r => r.vals tc)) 3 t (by omega) hw hlen
  · exact rollMeanShiftAt_causal (df.map (fun r => r.vals tc)) 6 t (by omega) hw hlen
  · exact rollMeanShiftAt_causal (df.map (fun r => r.vals tc)) 24 t (by omega) hw hlen

/-- Table of 25 hourly rows whose every channel ramps 0,1,...,24. -/
def rampTable : List Row :=
  (List.range 25).map (fun k => { ts := k, vals := fun _ => (k : ℚ) })

/-- Witness for C3 at the ramp table, target channel and row 24. -/
theorem C3_witness :
    (3 ≤ 24 →
      ((create_features_xgb rampTable TARGET_COLUMN).getD 24 defaultEnriched).roll3h
        = some (listMean (((rampTable.map
            (fun r => r.vals TARGET_COLUMN)).drop (24 - 3)).take 3)) ∧
      (((rampTable.map (fun r => r.vals TARGET_COLUMN)).drop (24 - 3)).take 3).length = 3 ∧
      (∀ j, j < 3 →
        (((rampTable.map (fun r => r.vals TARGET_COLUMN)).drop (24 - 3)).take 3).getD j 0
          = (rampTable.map (fun r => r.vals TARGET_COLUMN)).getD (24 - 3 + j) 0 ∧
          24 - 3 + j < 24)) ∧
    (6 ≤ 24 →
      ((create_features_xgb rampTable TARGET_COLUMN).getD 24 defaultEnriched).roll6h
        = some (listMean (((rampTable.map
            (fun r => r.vals TARGET_COLUMN)).drop (24 - 6)).take 6)) ∧
      (((rampTable.map (fun r => r.vals TARGET_COLUMN)).drop (24 - 6)).take 6).length = 6 ∧
      (∀ j, j < 6 →
        (((rampTable.map (fun r => r.vals TARGET_COLUMN)).drop (24 - 6)).take 6).getD j 0
          = (rampTable.map (fun r => r.vals TARGET_COLUMN)).getD (24 - 6 + j) 0 ∧
          24 - 6 + j < 24)) ∧
    (24 ≤ 24 →
      ((create_features_xgb rampTable TARGET_COLUMN).getD 24 defaultEnriched).roll24h
        = some (listMean (((rampTable.map
            (fun r => r.vals TARGET_COLUMN)).drop (24 - 24)).take 24)) ∧
      (((rampTable.map (fun r => r.vals TARGET_COLUMN)).drop (24 - 24)).take 24).length = 24 ∧
      (∀ j, j < 24 →
        (((rampTable.map (fun r => r.vals TARGET_COLUMN)).drop (24 - 24)).take 24).getD j 0
          = (rampTable.map (fun r => r.vals TARGET_COLUMN)).getD (24 - 24 + j) 0 ∧
          24 - 24 + j < 24)) :=
  C3_rolling_means_are_causal rampTable TARGET_COLUMN 24 (by simp [rampTable])

/-- C4 (code behavior): the shipped alert check returns the single
hardcoded demo alert whatever the time of the request is, and in
particular emits one alert even though the spec's evaluator on a forecast
kept entirely below the threshold returns the empty sequence. -/
theorem C4_check_alerts_is_hardcoded :
    (∀ now : Nat,
      check_alerts now =
        [{ timestamp := now + 4, level := "critical", id := "alert-1",
           message := demoMessage }] ∧
      (check_alerts now).length = 1) ∧
    evaluateSpec
      [{ timestamp := 1, predicted_power := 400 },
       { timestamp := 2, predicted_power := 400 }] 500 = [] := by
  constructor
  · intro now
    exact ⟨rfl, rfl⟩
  · simp [evaluateSpec]
    norm_num

/-- C5 counterexample: on a one-row table (fewer than `N_LOOKBACK = 72`
rows) the sequence-window extraction does not fail at all — it returns a
1-row window, contradicting both halves of the claim (failure on short
tables; exactly 72 rows on success). -/
theorem C5_counterexample :
    oneRowTable.length < N_LOOKBACK ∧
    (windowLstm oneRowTable FEATURES_LSTM N_LOOKBACK).length = 1 ∧
    (windowLstm oneRowTable FEATURES_LSTM N_LOOKBACK).length ≠ N_LOOKBACK := by
  refine ⟨by decide, by decide, by decide⟩

/-- C5 amended: the extraction never signals a failure — it returns the
last `min (length, 72)` rows of the table restricted to the requested
channels, and exactly 72 rows whenever the table holds at least 72
rows. -/
theorem C5_window_extraction_is_total (table : List Row) (chs : List String) :
    windowLstm table chs N_LOOKBACK
      = (lastN N_LOOKBACK table).map (fun r => chs.map r.vals) ∧
    (windowLstm table chs N_LOOKBACK).length = min table.length N_LOOKBACK ∧
    (N_LOOKBACK ≤ table.length →
      (windowLstm table chs N_LOOKBACK).length = N_LOOKBACK) := by
  have hmap : windowLstm table chs N_LOOKBACK
      = (lastN N_LOOKBACK table).map (fun r => chs.map r.vals) := by
    unfold windowLstm lastN
    rw [List.length_map, ← List.map_drop]
  have hlen : (windowLstm table chs N_LOOKBACK).length
      = min table.length N_LOOKBACK := by
    rw [hmap, List.length_map]
    unfold lastN
    rw [List.length_drop]
    omega
  refine ⟨hmap, hlen, ?_⟩
  intro hge
  rw [hlen]
  omega

/-- Witness for C5 amended at a 72-row table. -/
theorem C5_witness :
    (windowLstm (List.replicate 72 defaultRow) FEATURES_LSTM N_LOOKBACK).length
      = N_LOOKBACK :=
  (C5_window_extraction_is_total (List.replicate 72 defaultRow) FEATURES_LSTM).2.2
    (by simp [N_LOOKBACK])

/-- C6 counterexample: the deriver assigns six calendar columns, all six
appear in the trained feature order, and `FEATURES_XGB` has 17 entries —
not the five calendar fields and 5 + 5 + 6 = 16 entries the claim
states. -/
theorem C6_counterexample :
    calendarCols.length = 6 ∧
    FEATURES_XGB.length = 17 ∧
    (FEATURES_XGB.filter (fun c => calendarCols.contains c)).length = 6 ∧
    ¬(calendarCols.length = 5 ∧ FEATURES_XGB.length = 5 + 5 + 6) := by
  decide

/-- C6 amended: the deriver computes exactly six calendar fields from the
timestamp, and the vector fed to the tree regressor consists of 5 raw
channels, 6 calendar fields and 6 lag/rolling features — 17 entries in
the fixed order used at training time. -/
theorem C6_feature_vector_composition :
    FEATURES_XGB = rawChannelCols ++ calendarCols ++ lagRollCols ∧
    rawChannelCols.length = 5 ∧
    calendarCols.length = 6 ∧
    lagRollCols.length = 6 ∧
    FEATURES_XGB.length = 17 ∧
    (∀ df tc t,
      (enrichedAt df tc t).hour = (hourOfTs ((df.getD t defaultRow).ts) : ℚ) ∧
      (enrichedAt df tc t).dayofweek
        = (dayofweekOfTs ((df.getD t defaultRow).ts) : ℚ) ∧
      (enrichedAt df tc t).month = (monthOfTs ((df.getD t defaultRow).ts) : ℚ) ∧
      (enrichedAt df tc t).quarter = (quarterOfTs ((df.getD t defaultRow).ts) : ℚ) ∧
      (enrichedAt df tc t).year = (yearOfTs ((df.getD t defaultRow).ts) : ℚ) ∧
      (enrichedAt df tc t).dayofyear
        = (dayofyearOfTs ((df.getD t defaultRow).ts) : ℚ)) ∧
    ∀ er : EnrichedRow, xgbFeatureVector er =
      [some (er.base.vals "Phase2_current"), some (er.base.vals "Phase2_voltage"),
       some (er.base.vals "Phase3_frequency"), some (er.base.vals "Phase3_pf"),
       some (er.base.vals "Phase3_voltage"),
       some er.hour, some er.dayofweek, some er.month, some er.quarter,
       some er.year, some er.dayofyear,
       er.lag1h, er.lag3h, er.lag24h, er.roll3h, er.roll6h, er.roll24h] := by
  refine ⟨rfl, rfl, rfl, rfl, rfl, ?_, ?_⟩
  · intro df tc t
    exact ⟨rfl, rfl, rfl, rfl, rfl, rfl⟩
  · intro er
    rfl

/-- Mapping positional default lookup over the index range rebuilds the
list. -/
theorem map_range_getD (l : List α) (d : α) :
    (List.range l.length).map (fun i => l.getD i d) = l := by
  induction l with
  | nil => rfl
  | cons a l ih =>
    rw [List.length_cons, List.range_succ_eq_map, List.map_cons, List.map_map]
    have hc : ((fun i => (a :: l).getD i d) ∘ Nat.succ) = fun i => l.getD i d := by
      funext i
      simp [List.getD]
    rw [hc, ih]
    rfl

/-- C8: the feature deriver is pure — the enriched table carries the
input rows unchanged (the deriver works on a copy and only adds derived
columns), and two calls on equal tables return equal enriched tables. -/
theorem C8_create_features_xgb_pure (df : List Row) (tc : String) :
    (create_features_xgb df tc).map EnrichedRow.base = df ∧
    ∀ df2, df2 = df → create_features_xgb df2 tc = create_features_xgb df tc := by
  constructor
  · unfold create_features_xgb
    rw [List.map_map]
    have hb : (EnrichedRow.base ∘ enrichedAt df tc)
        = fun t => df.getD t defaultRow := rfl
    rw [hb]
    exact map_range_getD df defaultRow
  · intro df2 hdf
    rw [hdf]

/-- Witness for C8 at the one-row table and the target channel. -/
theorem C8_witness :
    (create_features_xgb oneRowTable TARGET_COLUMN).map EnrichedRow.base
      = oneRowTable ∧
    create_features_xgb oneRowTable TARGET_COLUMN
      = create_features_xgb oneRowTable TARGET_COLUMN :=
  ⟨(C8_create_features_xgb_pure oneRowTable TARGET_COLUMN).1,
   (C8_create_features_xgb_pure oneRowTable TARGET_COLUMN).2 oneRowTable rfl⟩

/-- C9: a forecast request never touches the shared historical table —
the rollout operates on a private copy of the trailing 96-row slice
(app.py line 115), it only ever appends to that copy (every copied row
survives unchanged as the prefix of the final rolling state), and the
request reads the shared table through nothing but that trailing
slice. -/
theorem C9_shared_table_untouched (M : Models) (full : List Row) :
    (∀ res fin, get_hourly_forecast_full M full = Except.ok (res, fin) →
      fin.take (lastN 96 full).length = lastN 96 full) ∧
    (∀ full2, lastN 96 full2 = lastN 96 full →
      get_hourly_forecast_full M full2 = get_hourly_forecast_full M full) := by
  constructor
  · intro res fin h
    have h2 : rolloutAux M TARGET_COLUMN 24 (lastN 96 full) [] = Except.ok (res, fin) := h
    obtain ⟨p, -, hfin⟩ := rolloutAux_ok_shape M TARGET_COLUMN 24 (lastN 96 full) [] h2
    rw [hfin]
    exact List.take_left _ _
  · intro full2 hslice
    unfold get_hourly_forecast_full
    rw [hslice]

/-- Witness for C9 at the constant artifact bundle and a one-row table. -/
theorem C9_witness :
    ∃ (res : List ForecastResult) (fin : List Row),
      get_hourly_forecast_full constModels oneRowTable = Except.ok (res, fin) ∧
      fin.take (lastN 96 oneRowTable).length = lastN 96 oneRowTable ∧
      get_hourly_forecast_full constModels oneRowTable
        = get_hourly_forecast_full constModels oneRowTable := by
  have hbase : lastN 96 oneRowTable ≠ [] :=
    lastN_ne_nil oneRowTable_ne_nil 96 (by omega)
  obtain ⟨out, hout⟩ :=
    rolloutAux_total constModels_total TARGET_COLUMN 24 (lastN 96 oneRowTable) [] hbase
  obtain ⟨res, fin⟩ := out
  have h : get_hourly_forecast_full constModels oneRowTable = Except.ok (res, fin) :=
    hout
  exact ⟨res, fin, h,
    (C9_shared_table_untouched constModels oneRowTable).1 res fin h,
    (C9_shared_table_untouched constModels oneRowTable).2 oneRowTable rfl⟩

end CityForecast
